import Mathlib

set_option maxRecDepth 8000

/-!
# Verification of the UltraNode effect-engine and supervisory core

Shallow embedding, in Lean 4, of the parts of the UltraNode firmware
(`src/UltraNodeV5`) that the specification's testable properties talk about:

* the gamma table and brightness compositing of the render pipeline
  (`components/ul_common_effects/gamma.c`,
   `components/ul_ws_engine/ul_ws_engine.c`);
* the per-family render state and `set_effect` control API of the ws, rgb
  and white engines;
* the Wi-Fi reconnection backoff state machine
  (`components/ul_core/ul_core.c`);
* the health-monitor watchdog and its recovery rate limiting
  (`components/ul_health/ul_health.c`);
* the `swell` white effect's parameter application
  (`components/ul_white_engine/effects_white/swell.c`).

Machine integers are modelled by `Nat`/`Int`; the C code under scrutiny never
overflows in the situations the theorems describe (timestamps are `uint64_t`
microsecond counts, color bytes are `uint8_t` in `[0,255]`, attempt counters
saturate at `UINT32_MAX` which the embedding reproduces explicitly).
-/

namespace UltraNode

/-! ## Gamma table (`ul_common_effects/gamma.c`)

`init_gamma_table` fills `s_gamma_tbl[i]` with
`(int)(powf(i/255.0f, 2.2f) * 255.0f + 0.5f)` clamped to `[0,255]`, i.e. the
rounding of the real number `255 * (i/255)^2.2`.  The embedding computes that
rounding exactly with integer arithmetic: for `0 ≤ x`,
`round x = #{n < 256 | n + 1/2 ≤ x}` whenever `x ≤ 255.5`, and
`n + 1/2 ≤ 255 * (c/255)^(11/5)` iff `(2n+1)^5 * 255^6 ≤ 32 * c^11`
(raise both sides to the 5th power, which is monotone on nonnegatives).
The resulting 256-entry table was checked to agree entry-by-entry with the
float32 computation performed by the C source. -/

def ul_gamma8 (c : Nat) : Nat :=
  (List.range 256).countP (fun n => (2 * n + 1) ^ 5 * 255 ^ 6 ≤ 32 * c ^ 11)

/-! ## WS render post-processing (`ul_ws_engine.c`, `render_one`)

After the active effect has filled the frame buffer, `render_one` (with
`CONFIG_UL_GAMMA_ENABLE` set) maps every byte through `ul_gamma8` and then
calls `apply_brightness`, which scales every byte by `bri/255` with C integer
division (truncation); `bri == 255` short-circuits and leaves the buffer
untouched.  The staged pixel values handed to `led_strip_set_pixel` are
exactly the bytes of the processed buffer. -/

def apply_brightness (f : List Nat) (bri : Nat) : List Nat :=
  if bri = 255 then f else f.map (fun v => v * bri / 255)

def ws_gamma_stage (f : List Nat) : List Nat := f.map ul_gamma8

/-- The per-byte post-processing pipeline of `render_one` with gamma enabled:
gamma first, then brightness scaling. -/
def render_one_post (f : List Nat) (bri : Nat) : List Nat :=
  apply_brightness (ws_gamma_stage f) bri

/-! ## WS engine data model (`ul_ws_engine.c`)

`ws_strip_t` holds the per-strip render state.  The C `frame_pos` field is a
`float` that only ever takes small whole-number values (it is set to `0.0f`
and incremented by `1.0f`), for which float arithmetic and the
`(int)` truncation in `render_one` are exact, so it is embedded as a `Nat`.
Effects are registered in a static table (`effects_ws/registry.c`); the
embedding keeps the table as a list of records whose `render` field maps
`(pixels, frame_idx)` to the produced byte buffer (every registered ws effect
overwrites the whole `memset`-zeroed buffer).  Effect-internal global state
that `render` reads (e.g. the rainbow wavelength, defaulting to 32) is baked
into the `render` function of the registry entry, faithful to runs in which
no `apply_params` call has modified it. -/

structure WsEffect where
  name : String
  hasInit : Bool
  render : Nat → Nat → List Nat

structure WsStrip where
  eff : Option WsEffect
  solid_r : Nat
  solid_g : Nat
  solid_b : Nat
  brightness : Nat
  frame_pos : Nat
  pixels : Nat
  handle : Bool
  frame : Option (List Nat)

/-- `deinit_strip`: releases the handle and buffer and zeroes every
per-strip field. -/
def deinit_strip : WsStrip :=
  { eff := none, solid_r := 0, solid_g := 0, solid_b := 0, brightness := 0,
    frame_pos := 0, pixels := 0, handle := false, frame := none }

/-- Outcomes of the three fallible hardware/allocation steps inside
`init_strip`: `led_strip_new_spi_device`, `led_strip_clear`,
`heap_caps_malloc`. -/
structure WsHwEnv where
  newDevOk : Bool
  clearOk : Bool
  mallocOk : Bool

/-- `init_strip`: starts from a fully-deinitialized strip, returns early
(leaving the strip zeroed) when the strip is disabled or any hardware step
fails — each failure path calls `deinit_strip` — and otherwise installs the
buffer, the default effect (`&tbl[0]`, i.e. the head of the registry), full
brightness and a zero frame counter. -/
def init_strip (env : WsHwEnv) (pixels : Nat) (enabled : Bool)
    (registry : List WsEffect) : WsStrip :=
  if !enabled then deinit_strip
  else if !env.newDevOk then deinit_strip
  else if !env.clearOk then deinit_strip
  else if !env.mallocOk then deinit_strip
  else
    { eff := registry.head?, solid_r := 0, solid_g := 0, solid_b := 0,
      brightness := 255, frame_pos := 0, pixels := pixels, handle := true,
      frame := some (List.replicate (pixels * 3) 0) }

/-- Whether `init_strip` succeeds for an enabled strip. -/
def wsInitOk (env : WsHwEnv) : Bool :=
  env.newDevOk && env.clearOk && env.mallocOk

/-- `render_one` for one strip (`gammaOn` is `CONFIG_UL_GAMMA_ENABLE`).
Returns the updated strip together with the list of staged pixel byte values
(the arguments of the `led_strip_set_pixel` calls).  A strip with no pixels
or no handle is skipped.  Note the order in the C source: `frame_pos` is
incremented by `1.0f` *before* being truncated into the `frame_idx` passed to
the effect's `render`. -/
def render_one (gammaOn : Bool) (s : WsStrip) : WsStrip × List Nat :=
  if s.pixels = 0 || !s.handle then (s, [])
  else
    match s.eff with
    | none =>
        let f := List.replicate (s.pixels * 3) 0
        let f := if gammaOn then ws_gamma_stage f else f
        let f := apply_brightness f s.brightness
        ({ s with frame := some f }, f)
    | some e =>
        let pos := s.frame_pos + 1
        let f := e.render s.pixels pos
        let f := if gammaOn then ws_gamma_stage f else f
        let f := apply_brightness f s.brightness
        ({ s with frame_pos := pos, frame := some f }, f)

/-- `find_effect_by_name`: linear scan of the registry. -/
def find_effect_by_name (registry : List WsEffect) (name : String) :
    Option WsEffect :=
  registry.find? (fun e => e.name = name)

structure WsEngineSt where
  strip0 : WsStrip
  strip1 : WsStrip
  refresh_sem : Bool
  refresh_task : Bool
  ws_task : Bool

/-- The ws engine's state before `ul_ws_engine_start` has run (static zeroed
globals). -/
def wsInitialSt : WsEngineSt :=
  { strip0 := deinit_strip, strip1 := deinit_strip, refresh_sem := false,
    refresh_task := false, ws_task := false }

/-- Static configuration plus the fallible-call outcomes consumed by
`ul_ws_engine_start`. -/
structure WsStartEnv where
  connected : Bool
  en0 : Bool
  en1 : Bool
  pixels0 : Nat
  pixels1 : Nat
  env0 : WsHwEnv
  env1 : WsHwEnv
  semOk : Bool

/-- `ul_ws_engine_start`: bails out immediately (state untouched) when
`ul_core_is_connected()` is false; otherwise initializes both strips, creates
the refresh semaphore (on failure deinitializing every strip and returning),
and creates the refresh and render tasks (their creation result is not
checked by this engine). -/
def ul_ws_engine_start (st : WsEngineSt) (e : WsStartEnv)
    (registry : List WsEffect) : WsEngineSt :=
  if !e.connected then st
  else
    let s0 := init_strip e.env0 e.pixels0 e.en0 registry
    let s1 := init_strip e.env1 e.pixels1 e.en1 registry
    if !e.semOk then
      { strip0 := deinit_strip, strip1 := deinit_strip, refresh_sem := false,
        refresh_task := st.refresh_task, ws_task := st.ws_task }
    else
      { strip0 := s0, strip1 := s1, refresh_sem := true,
        refresh_task := true, ws_task := true }

/-- `get_strip`: valid index and `pixels > 0`. -/
def ws_get_strip (st : WsEngineSt) (idx : Int) : Option WsStrip :=
  if idx = 0 then (if st.strip0.pixels = 0 then none else some st.strip0)
  else if idx = 1 then (if st.strip1.pixels = 0 then none else some st.strip1)
  else none

def ws_set_strip (st : WsEngineSt) (idx : Int) (s : WsStrip) : WsEngineSt :=
  if idx = 0 then { st with strip0 := s }
  else if idx = 1 then { st with strip1 := s }
  else st

/-- `ul_ws_get_strip_count`: counts the strips whose `pixels` field is
positive (both compile-time strip slots are assumed enabled). -/
def ul_ws_get_strip_count (st : WsEngineSt) : Nat :=
  (if 0 < st.strip0.pixels then 1 else 0) +
  (if 0 < st.strip1.pixels then 1 else 0)

/-- `ul_ws_set_effect`: fails (returning `false` and leaving the engine
unchanged) when the strip is disabled/out-of-range or the name is not
registered; otherwise installs the effect, resets `frame_pos` to `0.0f` and
calls the effect's `init` when present.  The second component of the result
is the new engine state, the third records whether an `init` hook was
invoked. -/
def ul_ws_set_effect (st : WsEngineSt) (idx : Int) (name : String)
    (registry : List WsEffect) : Bool × WsEngineSt × Bool :=
  match ws_get_strip st idx with
  | none => (false, st, false)
  | some s =>
    match find_effect_by_name registry name with
    | none => (false, st, false)
    | some e =>
        (true, ws_set_strip st idx { s with eff := some e, frame_pos := 0 },
         e.hasInit)

/-! ### The registered `rainbow` ws effect (`effects_ws/rainbow.c`)

Pure integer arithmetic; all `uint8_t` intermediate values provably stay in
`[0,255]` (for `h < 85`, `h*3 ≤ 252`), so `Nat` arithmetic is exact.  The
per-strip wavelength `s_wavelength` defaults to 32; the registry entry below
bakes that default in, which is faithful as long as no `rainbow`
`apply_params` call has run. -/

def hue_to_rgb (h0 : Nat) : Nat × Nat × Nat :=
  let h := 255 - h0
  if h < 85 then (255 - h * 3, 0, h * 3)
  else if h < 170 then (0, (h - 85) * 3, 255 - (h - 85) * 3)
  else ((h - 170) * 3, 255 - (h - 170) * 3, 0)

def rainbow_render (w : Nat) (pixels : Nat) (frame_idx : Nat) : List Nat :=
  ((List.range pixels).map (fun i =>
    let pos := (i + frame_idx) % w
    let hue := pos * 255 / w
    let rgb := hue_to_rgb hue
    [rgb.1, rgb.2.1, rgb.2.2])).flatten

def rainbowEffect : WsEffect :=
  { name := "rainbow", hasInit := true, render := rainbow_render 32 }

/-! ## White engine (`ul_white_engine/ul_white_engine.c`)

`white_ch_t` per-channel state; the render loop in `white_task` reads the
effect's byte via `render(frame_idx++)` (post-increment), scales it by
`brightness/255`, and converts to a 12-bit duty via `v * 4095 / 255`. -/

structure WhiteEffect where
  name : String
  hasInit : Bool
  render : Nat → Nat

structure WhiteCh where
  enabled : Bool
  brightness : Nat
  eff : Option WhiteEffect
  frame_idx : Nat

/-- One channel's slice of a `white_task` loop iteration: returns the updated
channel and, when the channel is enabled, the pair of the brightness-scaled
byte and the LEDC duty written to hardware. -/
def white_render_step (c : WhiteCh) : WhiteCh × Option (Nat × Nat) :=
  if !c.enabled then (c, none)
  else
    let r := match c.eff with
      | some e => (e.render c.frame_idx, { c with frame_idx := c.frame_idx + 1 })
      | none => (0, c)
    let v := r.1 * c.brightness / 255
    let duty := v * ((2 ^ 12) - 1) / 255
    (r.2, some (v, duty))

structure WhiteEngineSt where
  chs : List WhiteCh

/-- `get_ch`: index in `[0,3]` and channel enabled. -/
def white_get_ch (st : WhiteEngineSt) (ch : Int) : Option WhiteCh :=
  if ch < 0 || 3 < ch then none
  else match st.chs[ch.toNat]? with
    | some c => if c.enabled then some c else none
    | none => none

def white_find_eff (registry : List WhiteEffect) (name : String) :
    Option WhiteEffect :=
  registry.find? (fun e => e.name = name)

/-- `ul_white_set_effect`: fails on a disabled/out-of-range channel or an
unregistered name; on success installs the effect, resets `frame_idx` to 0
and invokes `init` when present (third component records that). -/
def ul_white_set_effect (st : WhiteEngineSt) (ch : Int) (name : String)
    (registry : List WhiteEffect) : Bool × WhiteEngineSt × Bool :=
  match white_get_ch st ch with
  | none => (false, st, false)
  | some c =>
    match white_find_eff registry name with
    | none => (false, st, false)
    | some e =>
        (true,
         { st with
            chs := st.chs.set ch.toNat { c with eff := some e, frame_idx := 0 } },
         e.hasInit)

/-! ## RGB engine (`ul_rgb_engine/ul_rgb_engine.c`) -/

structure RgbEffect where
  name : String
  hasInit : Bool
  render : Nat → Nat → Nat × Nat × Nat

structure RgbStrip where
  enabled : Bool
  brightness : Nat
  eff : Option RgbEffect
  frame_idx : Nat
  last_color : Nat × Nat × Nat

/-- One strip's slice of an `rgb_task` loop iteration (strip index `i`):
`render(i, rgb, frame_idx++)` fills the local `rgb` triple (post-increment),
`last_color` caches the raw triple, then gamma (when enabled) and
`brightness/255` scaling produce the bytes converted to LEDC duties.  The
second component lists the three post-brightness bytes. -/
def rgb_render_step (gammaOn : Bool) (i : Nat) (s : RgbStrip) :
    RgbStrip × Option (List Nat) :=
  if !s.enabled then (s, none)
  else
    let r := match s.eff with
      | some e => (e.render i s.frame_idx, { s with frame_idx := s.frame_idx + 1 })
      | none => ((0, 0, 0), s)
    let raw := [r.1.1, r.1.2.1, r.1.2.2]
    let g := if gammaOn then raw.map ul_gamma8 else raw
    let out := g.map (fun v => v * s.brightness / 255)
    ({ r.2 with last_color := r.1 }, some out)

structure RgbEngineSt where
  strips : List RgbStrip

/-- `get_strip` of the rgb engine: index in `[0,3]` and strip enabled. -/
def rgb_get_strip (st : RgbEngineSt) (idx : Int) : Option RgbStrip :=
  if idx < 0 || 3 < idx then none
  else match st.strips[idx.toNat]? with
    | some s => if s.enabled then some s else none
    | none => none

def rgb_find_effect (registry : List RgbEffect) (name : String) :
    Option RgbEffect :=
  registry.find? (fun e => e.name = name)

/-- `ul_rgb_set_effect`: same contract as the ws/white variants. -/
def ul_rgb_set_effect (st : RgbEngineSt) (idx : Int) (name : String)
    (registry : List RgbEffect) : Bool × RgbEngineSt × Bool :=
  match rgb_get_strip st idx with
  | none => (false, st, false)
  | some s =>
    match rgb_find_effect registry name with
    | none => (false, st, false)
    | some e =>
        (true,
         { st with
            strips := st.strips.set idx.toNat
              { s with eff := some e, frame_idx := 0 } },
         e.hasInit)

/-! ## Wi-Fi reconnection backoff (`ul_core/ul_core.c`)

The backoff state is the single variable `s_backoff_ms`.  Events:

* `WIFI_EVENT_STA_START` — reset backoff to 1000 ms, call connect;
* `WIFI_EVENT_STA_DISCONNECTED` — arm the one-shot reconnect timer for the
  *current* backoff (the handler does not change the backoff);
* `IP_EVENT_STA_GOT_IP` — reset backoff to 1000 ms;
* reconnect-timer expiry (`wifi_reconnect_timer_cb`) — call
  `esp_wifi_connect()`; when that call fails synchronously, re-arm the timer
  for the current (not yet doubled) backoff; then, in either case, double the
  backoff and cap it at `WIFI_MAX_BACKOFF_MS`.

`coreStep` returns the new backoff and the list of timer delays (ms)
scheduled by the event. -/

def WIFI_MAX_BACKOFF_MS : Nat := 30000

inductive WifiEv
  | staStart
  | disconnected
  | gotIP
  | timerFire (connectOk : Bool)

def coreStep : Nat → WifiEv → Nat × List Nat
  | _, .staStart => (1000, [])
  | b, .disconnected => (b, [b])
  | _, .gotIP => (1000, [])
  | b, .timerFire ok =>
      let sched := if ok then [] else [b]
      let b2 := b * 2
      (if WIFI_MAX_BACKOFF_MS < b2 then WIFI_MAX_BACKOFF_MS else b2, sched)

/-- Run a list of Wi-Fi events, collecting every scheduled timer delay in
order. -/
def coreRun (b : Nat) : List WifiEv → Nat × List Nat
  | [] => (b, [])
  | ev :: evs =>
      let s := coreStep b ev
      let r := coreRun s.1 evs
      (r.1, s.2 ++ r.2)

/-- One disconnect followed by the reconnect timer firing with a successful
synchronous connect call. -/
def discFirePair : List WifiEv := [.disconnected, .timerFire true]

def discFirePairs : Nat → List WifiEv
  | 0 => []
  | n + 1 => discFirePair ++ discFirePairs n

/-! ## Health monitor (`ul_health/ul_health.c`)

Timestamps are `uint64_t` microsecond counts from `esp_timer_get_time` (a
monotone clock); theorems state the monotonicity `last ≤ now` explicitly,
under which C unsigned subtraction agrees with `Nat` subtraction.  The
`uint32_t` attempt counters saturate at `UINT32_MAX` exactly as in the
source. -/

def UL_HEALTH_WIFI_RECOVERY_DELAY_US : Nat := 15 * 60 * 1000000
def UL_HEALTH_WIFI_RECOVERY_RETRY_US : Nat := 10 * 60 * 1000000
def UL_HEALTH_WIFI_ESCALATE_US : Nat := 6 * 60 * 60 * 1000000
def UL_HEALTH_WIFI_MAX_RECOVERIES : Nat := 4
def UL_HEALTH_MQTT_RECOVERY_DELAY_US : Nat := 5 * 60 * 1000000
def UL_HEALTH_MQTT_RECOVERY_RETRY_US : Nat := 5 * 60 * 1000000
def UL_HEALTH_MQTT_ESCALATE_US : Nat := 2 * 60 * 60 * 1000000
def UL_HEALTH_MQTT_MAX_RECOVERIES : Nat := 6
def UL_HEALTH_HEAP_LOW_THRESHOLD : Nat := 20 * 1024
def UL_HEALTH_HEAP_LOW_STRIKES : Nat := 5
def UL_HEALTH_TIME_SYNC_WARN_US : Nat := 24 * 60 * 60 * 1000000
def UL_HEALTH_TIME_SYNC_ERROR_US : Nat := 7 * 24 * 60 * 60 * 1000000
def UL_HEALTH_LOG_INTERVAL_US : Nat := 15 * 60 * 1000000
def UINT32_MAX : Nat := 2 ^ 32 - 1

structure HealthState where
  started : Bool
  wifi_connected : Bool
  mqtt_connected : Bool
  time_sync_seen : Bool
  wifi_recovery_attempts : Nat
  mqtt_recovery_attempts : Nat
  heap_low_strikes : Nat
  wifi_last_change_us : Nat
  mqtt_last_change_us : Nat
  last_wifi_recovery_us : Nat
  last_mqtt_recovery_us : Nat
  last_metrics_log_us : Nat
  last_time_sync_us : Nat

/-- `health_mark_wifi_recovery_attempt`: under the critical section, allow an
attempt only when the retry interval has elapsed since `last_wifi_recovery_us`
and (when the attempt is counted) the attempt counter is below the maximum;
when allowed, increment the counter (if counted, saturating) and stamp
`last_wifi_recovery_us`, all in the same atomic step. -/
def health_mark_wifi_recovery_attempt (st : HealthState) (now : Nat)
    (count : Bool) : Bool × HealthState :=
  if !st.started then (false, st)
  else if UL_HEALTH_WIFI_RECOVERY_RETRY_US ≤ now - st.last_wifi_recovery_us then
    if !count || st.wifi_recovery_attempts < UL_HEALTH_WIFI_MAX_RECOVERIES then
      let a :=
        if count && st.wifi_recovery_attempts < UINT32_MAX then
          st.wifi_recovery_attempts + 1
        else st.wifi_recovery_attempts
      (true, { st with wifi_recovery_attempts := a, last_wifi_recovery_us := now })
    else (false, st)
  else (false, st)

/-- `health_mark_mqtt_recovery_attempt`: same shape, always counting. -/
def health_mark_mqtt_recovery_attempt (st : HealthState) (now : Nat) :
    Bool × HealthState :=
  if !st.started then (false, st)
  else if UL_HEALTH_MQTT_RECOVERY_RETRY_US ≤ now - st.last_mqtt_recovery_us
      && st.mqtt_recovery_attempts < UL_HEALTH_MQTT_MAX_RECOVERIES then
    let a :=
      if st.mqtt_recovery_attempts < UINT32_MAX then
        st.mqtt_recovery_attempts + 1
      else st.mqtt_recovery_attempts
    (true, { st with mqtt_recovery_attempts := a, last_mqtt_recovery_us := now })
  else (false, st)

inductive HealthAction
  | reqWifiRecovery
  | reqMqttRecovery
  | rebootHeap
  | rebootWifi
  | rebootTimeSync
deriving DecidableEq, Repr

/-- Top of a `health_task` iteration: the throttled metrics-log stamp update
and the heap-low strike update (the only state the metric/heap section
mutates). -/
def health_tick_pre (st : HealthState) (now mh : Nat) : HealthState :=
  let st :=
    if UL_HEALTH_LOG_INTERVAL_US ≤ now - st.last_metrics_log_us then
      { st with last_metrics_log_us := now }
    else st
  { st with
      heap_low_strikes :=
        if mh < UL_HEALTH_HEAP_LOW_THRESHOLD then
          (if st.heap_low_strikes < UINT32_MAX then st.heap_low_strikes + 1
           else st.heap_low_strikes)
        else 0 }

/-- The Wi-Fi-down branch of the tick (`if (!snapshot.wifi_connected)`):
after the recovery delay, try a rate-limited recovery request; when the
request is refused, escalate to a reboot exactly under the guard
`attempts ≥ max ∧ offline ≥ escalate-threshold ∧ retry interval elapsed`. -/
def health_wifi_branch (st : HealthState) (now : Nat) :
    HealthState × List HealthAction × Bool :=
  let offline := now - st.wifi_last_change_us
  if UL_HEALTH_WIFI_RECOVERY_DELAY_US ≤ offline then
    let m := health_mark_wifi_recovery_attempt st now true
    if m.1 then (m.2, [.reqWifiRecovery], false)
    else if UL_HEALTH_WIFI_MAX_RECOVERIES ≤ st.wifi_recovery_attempts
        ∧ UL_HEALTH_WIFI_ESCALATE_US ≤ offline
        ∧ UL_HEALTH_WIFI_RECOVERY_RETRY_US ≤ now - st.last_wifi_recovery_us
      then (m.2, [.rebootWifi], true)
    else (m.2, [], false)
  else (st, [], false)

/-- The MQTT branch (runs only with Wi-Fi up): rate-limited MQTT restart
request, escalating to a Wi-Fi cycle (a `reqWifiRecovery`, not a reboot)
after the MQTT attempts are exhausted and the MQTT escalate threshold has
passed. -/
def health_mqtt_branch (st : HealthState) (now : Nat) :
    HealthState × List HealthAction :=
  if !st.mqtt_connected then
    let moff := now - st.mqtt_last_change_us
    if UL_HEALTH_MQTT_RECOVERY_DELAY_US ≤ moff then
      let m := health_mark_mqtt_recovery_attempt st now
      if m.1 then (m.2, [.reqMqttRecovery])
      else if UL_HEALTH_MQTT_MAX_RECOVERIES ≤ st.mqtt_recovery_attempts
          ∧ UL_HEALTH_MQTT_ESCALATE_US ≤ moff then
        let m2 := health_mark_wifi_recovery_attempt m.2 now true
        if m2.1 then (m2.2, [.reqWifiRecovery]) else (m2.2, [])
      else (m.2, [])
    else (st, [])
  else (st, [])

/-- The time-sync branch (runs only with Wi-Fi up): reboot past the error
threshold, otherwise a rate-limited Wi-Fi recovery request past the warn
threshold. -/
def health_sync_branch (st : HealthState) (now : Nat) :
    HealthState × List HealthAction × Bool :=
  if st.time_sync_seen then
    let since := now - st.last_time_sync_us
    if UL_HEALTH_TIME_SYNC_ERROR_US ≤ since then (st, [.rebootTimeSync], true)
    else if UL_HEALTH_TIME_SYNC_WARN_US ≤ since then
      let m := health_mark_wifi_recovery_attempt st now true
      if m.1 then (m.2, [.reqWifiRecovery], false) else (m.2, [], false)
    else (st, [], false)
  else (st, [], false)

/-- One iteration of the `health_task` loop body (pure log statements and the
SNTP-retry log throttling, which touch no decision state, are omitted).
Inputs: the current `esp_timer_get_time()` value and the minimum free heap
reading.  Returns the updated state, the recovery/reboot actions issued, and
whether `esp_restart()` was reached — `esp_restart` never returns, so a
reboot ends the task's run.  The branch conditions read the fields that the
C code reads from its top-of-tick snapshot: the metrics/heap updates touch
none of the fields the branches consult, so threading the updated state
through is equivalent. -/
def health_tick (st : HealthState) (now mh : Nat) :
    HealthState × List HealthAction × Bool :=
  if !st.started then (st, [], false)
  else
    let st := health_tick_pre st now mh
    if mh < UL_HEALTH_HEAP_LOW_THRESHOLD
        ∧ UL_HEALTH_HEAP_LOW_STRIKES ≤ st.heap_low_strikes then
      (st, [.rebootHeap], true)
    else if !st.wifi_connected then health_wifi_branch st now
    else
      let r1 := health_mqtt_branch st now
      let r2 := health_sync_branch r1.1 now
      (r2.1, r1.2 ++ r2.2.1, r2.2.2)

/-- Run the health task over a list of `(now, min_heap)` tick inputs,
stopping (as `esp_restart()` does) at the first reboot. -/
def health_run (st : HealthState) : List (Nat × Nat) →
    HealthState × List HealthAction
  | [] => (st, [])
  | t :: ts =>
      let r := health_tick st t.1 t.2
      if r.2.2 then (r.1, r.2.1)
      else
        let rest := health_run r.1 ts
        (rest.1, r.2.1 ++ rest.2)

def HealthAction.isReboot : HealthAction → Bool
  | .rebootHeap => true
  | .rebootWifi => true
  | .rebootTimeSync => true
  | _ => false

/-! ## The `swell` white effect (`effects_white/swell.c`)

`white_swell_apply_params(ch, params)` reads up to three array entries:
clamped start level, clamped end level, and a duration in milliseconds that
is converted to a frame count by `(ms * CONFIG_UL_WHITE_SMOOTH_HZ) / 1000`
(C integer division) clamped below by 1; finally the channel's progress is
reset.  Non-number entries (and missing entries) are ignored.  The smoothing
rate is a compile-time constant not present in the sources, so it is kept as
a parameter `hz`. -/

inductive JVal
  | num (v : Int)
  | notNum

structure SwellSt where
  s_start : List Nat
  s_end : List Nat
  s_frames : List Nat
  s_progress : List Nat

/-- Clamp a cJSON `valueint` into a `uint8_t` the way the source does. -/
def clamp255 (x : Int) : Nat :=
  if x < 0 then 0 else if 255 < x then 255 else x.toNat

/-- The ms → frames conversion of `white_swell_apply_params`. -/
def swell_frames_of_ms (ms : Int) (hz : Nat) : Nat :=
  let ms' := if ms < 0 then 0 else ms
  let f := ms' * hz / 1000
  if f < 1 then 1 else f.toNat

/-- Modelled from the spec sentence it is compared against: duration-in-ms
parameters convert to frame counts via `frames = round(ms * rate_hz / 1000)`
clamped to a minimum of 1 (`round` on a nonnegative rational `a/b` is
`(2a + b) / (2b)` in integer arithmetic). -/
def spec_frames_of_ms (ms hz : Nat) : Nat :=
  max 1 ((2 * (ms * hz) + 1000) / 2000)

def white_swell_apply_params (st : SwellSt) (ch : Int)
    (params : Option (List JVal)) (hz : Nat) : SwellSt :=
  if ch < 0 || 3 < ch then st
  else
    match params with
    | none => st
    | some ps =>
        let c := ch.toNat
        let st :=
          match ps[0]? with
          | some (.num x) => { st with s_start := st.s_start.set c (clamp255 x) }
          | _ => st
        let st :=
          match ps[1]? with
          | some (.num y) => { st with s_end := st.s_end.set c (clamp255 y) }
          | _ => st
        let st :=
          match ps[2]? with
          | some (.num ms) =>
              { st with s_frames := st.s_frames.set c (swell_frames_of_ms ms hz) }
          | _ => st
        { st with s_progress := st.s_progress.set c 0 }

/-- The `white_swell_init` state: start 0, end 255, frames 1, progress 0 on
all four channels. -/
def swellInitSt : SwellSt :=
  { s_start := List.replicate 4 0, s_end := List.replicate 4 255,
    s_frames := List.replicate 4 1, s_progress := List.replicate 4 0 }

/-! ### Concrete demonstration states used by counterexamples and witnesses -/

/-- A start environment with connectivity, both hardware paths healthy, one
single-pixel strip 0 and strip 1 disabled. -/
def wsDemoEnv : WsStartEnv :=
  { connected := true, en0 := true, en1 := false, pixels0 := 1, pixels1 := 0,
    env0 := ⟨true, true, true⟩, env1 := ⟨true, true, true⟩, semOk := true }

/-- The engine state after a successful start against `wsDemoEnv` with the
rainbow effect registered. -/
def wsDemoSt : WsEngineSt := ul_ws_engine_start wsInitialSt wsDemoEnv [rainbowEffect]

/-- Strip 0 of `wsDemoSt`: one enabled pixel, rainbow registry. -/
def wsDemoStrip : WsStrip := init_strip ⟨true, true, true⟩ 1 true [rainbowEffect]

/-- Arbitrary concrete white-engine channel/effect/state used to instantiate
universally-quantified theorems. -/
def whiteDemoCh : WhiteCh :=
  { enabled := true, brightness := 255, eff := none, frame_idx := 7 }

def whiteDemoSt : WhiteEngineSt := { chs := List.replicate 4 whiteDemoCh }

def whiteDemoEffect : WhiteEffect := ⟨"demo", false, fun _ => 128⟩

/-- Arbitrary concrete rgb-engine strip/effect/state used to instantiate
universally-quantified theorems. -/
def rgbDemoStrip : RgbStrip :=
  { enabled := true, brightness := 255, eff := none, frame_idx := 7,
    last_color := (0, 0, 0) }

def rgbDemoSt : RgbEngineSt := { strips := List.replicate 4 rgbDemoStrip }

def rgbDemoEffect : RgbEffect := ⟨"demo", false, fun _ _ => (1, 2, 3)⟩

/-- Start environment in which strip 1's frame-buffer allocation fails
(mirroring the repo's `test_ws_engine_allocation.c` scenario). -/
def wsFailEnv1 : WsStartEnv :=
  { connected := true, en0 := true, en1 := true, pixels0 := 8, pixels1 := 16,
    env0 := ⟨true, true, true⟩, env1 := ⟨true, true, false⟩, semOk := true }

/-- Start environment in which strip 0's strip-device creation fails. -/
def wsFailEnv0 : WsStartEnv :=
  { connected := true, en0 := true, en1 := true, pixels0 := 8, pixels1 := 16,
    env0 := ⟨false, true, true⟩, env1 := ⟨true, true, true⟩, semOk := true }

/-- Start environment with the connectivity check failing. -/
def wsOfflineEnv : WsStartEnv :=
  { connected := false, en0 := true, en1 := true, pixels0 := 8, pixels1 := 16,
    env0 := ⟨true, true, true⟩, env1 := ⟨true, true, true⟩, semOk := true }

/-- A health-monitor state as of a run in which the monitor started at time
0 with Wi-Fi down and the Wi-Fi recovery attempts already exhausted. -/
def healthDemoSt : HealthState :=
  { started := true, wifi_connected := false, mqtt_connected := false,
    time_sync_seen := false, wifi_recovery_attempts := 4,
    mqtt_recovery_attempts := 0, heap_low_strikes := 0,
    wifi_last_change_us := 0, mqtt_last_change_us := 0,
    last_wifi_recovery_us := 0, last_mqtt_recovery_us := 0,
    last_metrics_log_us := 0, last_time_sync_us := 0 }

/-- Tick times/heap readings for the escalation scenario: a quiet early tick,
the tick at the six-hour mark, and one more tick that is never processed
because the device has rebooted. -/
def healthDemoTicks : List (Nat × Nat) :=
  [(1000000, 100000), (21600000000, 100000), (21600000001, 100000)]

/-- A freshly-started health-monitor state (all stamps at time 0, Wi-Fi and
MQTT down). -/
def healthFreshSt : HealthState :=
  { started := true, wifi_connected := false, mqtt_connected := false,
    time_sync_seen := false, wifi_recovery_attempts := 0,
    mqtt_recovery_attempts := 0, heap_low_strikes := 0,
    wifi_last_change_us := 0, mqtt_last_change_us := 0,
    last_wifi_recovery_us := 0, last_mqtt_recovery_us := 0,
    last_metrics_log_us := 0, last_time_sync_us := 0 }

theorem apply_brightness_getElem? (f : List Nat) (bri i : Nat) :
    (apply_brightness f bri)[i]? = f[i]?.map (fun v => v * bri / 255) := by
  unfold apply_brightness
  by_cases h : bri = 255
  · subst h
    simp only [if_pos rfl]
    cases hv : f[i]? with
    | none => simp [hv]
    | some v => simp [hv]
  · simp [h, List.getElem?_map]

theorem render_one_post_getElem? (f : List Nat) (bri i : Nat) :
    (render_one_post f bri)[i]?
      = f[i]?.map (fun v => ul_gamma8 v * bri / 255) := by
  unfold render_one_post ws_gamma_stage
  rw [apply_brightness_getElem?, List.getElem?_map]
  cases f[i]? <;> simp

/-- C1, counterexample to the claim as stated: the worked example in the
spec is wrong on the code.  At `c = 128`, `b = 128` the gamma table holds
`round(255*(128/255)^2.2) = 56` (not ≈60) and the pipeline emits
`56*128/255 = 28`, not 30. -/
theorem C1_worked_example_false :
    render_one_post [128] 128 = [28] ∧ ul_gamma8 128 = 56 ∧
    render_one_post [128] 128 ≠ [30] ∧ ul_gamma8 128 ≠ 60 := by
  refine ⟨by decide, by decide, by decide, by decide⟩

/-- C1 (amended): for every rendered frame and brightness, the gamma-enabled
pipeline of `render_one` maps each byte `c` to `gamma(c) * b / 255` — gamma
first, truncating integer division for the brightness scaling — where
`gamma(c) = round(255*(c/255)^2.2)`; the correct worked values at
`c = 128`, `b = 128` are `gamma(128) = 56` and output `56*128/255 = 28`. -/
theorem C1_brightness_after_gamma (f : List Nat) (bri i : Nat)
    (hi : i < f.length) :
    (render_one_post f bri)[i]? = some (ul_gamma8 f[i] * bri / 255)
    ∧ ul_gamma8 128 = 56 ∧ render_one_post [128] 128 = [28] := by
  refine ⟨?_, by decide, by decide⟩
  rw [render_one_post_getElem?, List.getElem?_eq_getElem hi]
  rfl

/-- Witness for `C1_brightness_after_gamma` at `f = [128]`, `bri = 128`,
`i = 0`. -/
theorem C1_brightness_after_gamma_witness :
    (render_one_post [128] 128)[0]? = some (ul_gamma8 128 * 128 / 255)
    ∧ ul_gamma8 128 = 56 ∧ render_one_post [128] 128 = [28] :=
  C1_brightness_after_gamma [128] 128 0 (by decide)

/-- Once the backoff has reached the ceiling, a disconnect/timer-fire pair
schedules exactly the 30000 ms ceiling and leaves the backoff at the
ceiling. -/
theorem coreRun_capped (n : Nat) :
    coreRun 30000 (discFirePairs n) = (30000, List.replicate n 30000) := by
  induction n with
  | zero => rfl
  | succ k ih =>
      simp only [discFirePairs, discFirePair, List.cons_append, List.nil_append,
        coreRun, coreStep, WIFI_MAX_BACKOFF_MS]
      simp [ih, List.replicate_succ]

/-- C3: starting from the 1000 ms floor, five consecutive disconnects (each
followed by the reconnect timer firing with a successful connect call)
schedule delays 1000, 2000, 4000, 8000, 16000 ms; the backoff is then pinned
at the 30000 ms ceiling, every later disconnect/fire pair schedules exactly
30000 ms, and a got-IP or station-start event resets the backoff to
1000 ms from any state. -/
theorem C3_backoff_doubles_and_caps (n : Nat) :
    (coreRun 1000 (discFirePairs 5)).2 = [1000, 2000, 4000, 8000, 16000]
    ∧ (coreRun 1000 (discFirePairs 5)).1 = 30000
    ∧ (coreRun 30000 (discFirePairs n)).2 = List.replicate n 30000
    ∧ (coreRun 30000 (discFirePairs n)).1 = 30000
    ∧ (∀ b, coreStep b WifiEv.gotIP = (1000, [])
        ∧ coreStep b WifiEv.staStart = (1000, [])) := by
  refine ⟨by decide, by decide, ?_, ?_, fun b => ⟨rfl, rfl⟩⟩
  · rw [coreRun_capped]
  · rw [coreRun_capped]

/-- C7, counterexample to the claim as stated: when the reconnect timer
fires and the synchronous connect call fails, the timer is re-armed at the
*not yet doubled* backoff — `wifi_reconnect_timer_cb` re-arms before the
doubling statement runs — so after a disconnect armed the timer at 1000 ms
the failing fire re-arms it at 1000 ms, not 2000 ms. -/
theorem C7_rearm_not_doubled :
    (coreRun 1000 [WifiEv.disconnected, WifiEv.timerFire false]).2 = [1000, 1000]
    ∧ (coreRun 1000 [WifiEv.disconnected, WifiEv.timerFire false]).2
        ≠ [1000, 2000] := by
  exact ⟨by decide, by decide⟩

/-- C7 (amended): when the reconnect timer fires and the synchronous connect
call fails, the timer is re-armed immediately (rather than waiting for
another disconnect event) at the *current* backoff — the same duration that
just elapsed — and the backoff doubles (capped) only after the re-arm, so
the next consecutive synchronous failure re-arms at twice that delay. -/
theorem C7_rearm_current_then_double (b : Nat) (h : b ≤ 15000) :
    coreStep b (WifiEv.timerFire false)
      = (if WIFI_MAX_BACKOFF_MS < b * 2 then WIFI_MAX_BACKOFF_MS else b * 2, [b])
    ∧ (coreRun b [WifiEv.timerFire false, WifiEv.timerFire false]).2 = [b, b * 2] := by
  constructor
  · rfl
  · have hcap : ¬ WIFI_MAX_BACKOFF_MS < b * 2 := by
      unfold WIFI_MAX_BACKOFF_MS; omega
    simp [coreRun, coreStep, hcap]

/-- Witness for `C7_rearm_current_then_double` at `b = 1000`. -/
theorem C7_rearm_current_then_double_witness :
    coreStep 1000 (WifiEv.timerFire false)
      = (if WIFI_MAX_BACKOFF_MS < 1000 * 2 then WIFI_MAX_BACKOFF_MS else 1000 * 2, [1000])
    ∧ (coreRun 1000 [WifiEv.timerFire false, WifiEv.timerFire false]).2
        = [1000, 1000 * 2] :=
  C7_rearm_current_then_double 1000 (by decide)

theorem ws_get_strip_pixels {st : WsEngineSt} {idx : Int} {s : WsStrip}
    (h : ws_get_strip st idx = some s) : s.pixels ≠ 0 := by
  unfold ws_get_strip at h
  split at h
  · split at h
    · exact absurd h (by simp)
    · cases h; assumption
  · split at h
    · split at h
      · exact absurd h (by simp)
      · cases h; assumption
    · exact absurd h (by simp)

theorem white_get_ch_enabled {st : WhiteEngineSt} {ch : Int} {c : WhiteCh}
    (h : white_get_ch st ch = some c) : c.enabled = true := by
  unfold white_get_ch at h
  split at h
  · exact absurd h (by simp)
  · split at h
    · split at h
      · cases h; assumption
      · exact absurd h (by simp)
    · exact absurd h (by simp)

theorem rgb_get_strip_enabled {st : RgbEngineSt} {idx : Int} {s : RgbStrip}
    (h : rgb_get_strip st idx = some s) : s.enabled = true := by
  unfold rgb_get_strip at h
  split at h
  · exact absurd h (by simp)
  · split at h
    · split at h
      · cases h; assumption
      · exact absurd h (by simp)
    · exact absurd h (by simp)

/-- C2, counterexample to the claim as stated: in the ws family the render
loop increments `frame_pos` *before* truncating it into the frame index, so
the first frame rendered after a successful `set_effect` is the effect's
output at frame index 1, not 0.  Concretely: a one-pixel strip switched to
the registered `rainbow` effect (default wavelength 32) renders, with gamma
disabled and full brightness so that staged bytes equal the raw effect
output, the frame `rainbow_render 32 1 1`, which differs from
`rainbow_render 32 1 0`. -/
theorem C2_ws_first_frame_index_one :
    (ul_ws_set_effect wsDemoSt 0 "rainbow" [rainbowEffect]).1 = true
    ∧ (ul_ws_set_effect wsDemoSt 0 "rainbow" [rainbowEffect]).2.1.strip0.frame_pos = 0
    ∧ (render_one false
        (ul_ws_set_effect wsDemoSt 0 "rainbow" [rainbowEffect]).2.1.strip0).2
        = rainbow_render 32 1 1
    ∧ rainbow_render 32 1 1 ≠ rainbow_render 32 1 0 := by
  refine ⟨rfl, rfl, by decide, by decide⟩

/-- C2 (amended): after a successful `set_effect` the channel's frame
counter is 0 in all three families, and the first frame subsequently
produced by the render loop equals the effect's render output at frame index
0 (modulo gamma/brightness scaling) in the rgb and white families; in the ws
family `render_one` increments the counter before truncation, so the first
frame equals the render output at frame index 1. -/
theorem C2_effect_switch_resets
    (g : Bool)
    (st : WsEngineSt) (idx : Int) (name : String) (reg : List WsEffect)
    (s : WsStrip) (e : WsEffect)
    (hget : ws_get_strip st idx = some s)
    (hfind : find_effect_by_name reg name = some e)
    (hh : s.handle = true)
    (wst : WhiteEngineSt) (wch : Int) (wname : String) (wreg : List WhiteEffect)
    (c : WhiteCh) (ew : WhiteEffect)
    (hwget : white_get_ch wst wch = some c)
    (hwfind : white_find_eff wreg wname = some ew)
    (rst : RgbEngineSt) (ridx : Int) (rname : String) (rreg : List RgbEffect)
    (r : RgbStrip) (er : RgbEffect) (i : Nat)
    (hrget : rgb_get_strip rst ridx = some r)
    (hrfind : rgb_find_effect rreg rname = some er) :
    ul_ws_set_effect st idx name reg
        = (true, ws_set_strip st idx { s with eff := some e, frame_pos := 0 },
           e.hasInit)
    ∧ ul_white_set_effect wst wch wname wreg
        = (true,
           { wst with
              chs := wst.chs.set wch.toNat { c with eff := some ew, frame_idx := 0 } },
           ew.hasInit)
    ∧ ul_rgb_set_effect rst ridx rname rreg
        = (true,
           { rst with
              strips := rst.strips.set ridx.toNat
                { r with eff := some er, frame_idx := 0 } },
           er.hasInit)
    ∧ white_render_step { c with eff := some ew, frame_idx := 0 }
        = ({ c with eff := some ew, frame_idx := 1 },
           some (ew.render 0 * c.brightness / 255,
                 ew.render 0 * c.brightness / 255 * (2 ^ 12 - 1) / 255))
    ∧ rgb_render_step g i { r with eff := some er, frame_idx := 0 }
        = ({ r with eff := some er, frame_idx := 1, last_color := er.render i 0 },
           some ((if g then
                    [(er.render i 0).1, (er.render i 0).2.1,
                     (er.render i 0).2.2].map ul_gamma8
                  else
                    [(er.render i 0).1, (er.render i 0).2.1,
                     (er.render i 0).2.2]).map
                  (fun v => v * r.brightness / 255)))
    ∧ (render_one g { s with eff := some e, frame_pos := 0 }).2
        = apply_brightness
            (if g then ws_gamma_stage (e.render s.pixels 1)
             else e.render s.pixels 1)
            s.brightness := by
  have hpx := ws_get_strip_pixels hget
  have hc := white_get_ch_enabled hwget
  have hr := rgb_get_strip_enabled hrget
  refine ⟨?_, ?_, ?_, ?_, ?_, ?_⟩
  · simp [ul_ws_set_effect, hget, hfind]
  · simp [ul_white_set_effect, hwget, hwfind]
  · simp [ul_rgb_set_effect, hrget, hrfind]
  · simp [white_render_step, hc]
  · simp [rgb_render_step, hr]
  · simp [render_one, hpx, hh]

/-- Witness for `C2_effect_switch_resets` on concrete engine states. -/
theorem C2_effect_switch_resets_witness :
    ul_ws_set_effect wsDemoSt 0 "rainbow" [rainbowEffect]
        = (true,
           ws_set_strip wsDemoSt 0
             { wsDemoStrip with eff := some rainbowEffect, frame_pos := 0 },
           rainbowEffect.hasInit)
    ∧ ul_white_set_effect whiteDemoSt 0 "demo" [whiteDemoEffect]
        = (true,
           { whiteDemoSt with
              chs := whiteDemoSt.chs.set 0
                { whiteDemoCh with eff := some whiteDemoEffect, frame_idx := 0 } },
           whiteDemoEffect.hasInit)
    ∧ ul_rgb_set_effect rgbDemoSt 0 "demo" [rgbDemoEffect]
        = (true,
           { rgbDemoSt with
              strips := rgbDemoSt.strips.set 0
                { rgbDemoStrip with eff := some rgbDemoEffect, frame_idx := 0 } },
           rgbDemoEffect.hasInit)
    ∧ white_render_step { whiteDemoCh with eff := some whiteDemoEffect, frame_idx := 0 }
        = ({ whiteDemoCh with eff := some whiteDemoEffect, frame_idx := 1 },
           some (whiteDemoEffect.render 0 * whiteDemoCh.brightness / 255,
                 whiteDemoEffect.render 0 * whiteDemoCh.brightness / 255
                   * (2 ^ 12 - 1) / 255))
    ∧ rgb_render_step true 0 { rgbDemoStrip with eff := some rgbDemoEffect, frame_idx := 0 }
        = ({ rgbDemoStrip with
              eff := some rgbDemoEffect, frame_idx := 1,
              last_color := rgbDemoEffect.render 0 0 },
           some ((if true then
                    [(rgbDemoEffect.render 0 0).1, (rgbDemoEffect.render 0 0).2.1,
                     (rgbDemoEffect.render 0 0).2.2].map ul_gamma8
                  else
                    [(rgbDemoEffect.render 0 0).1, (rgbDemoEffect.render 0 0).2.1,
                     (rgbDemoEffect.render 0 0).2.2]).map
                  (fun v => v * rgbDemoStrip.brightness / 255)))
    ∧ (render_one true { wsDemoStrip with eff := some rainbowEffect, frame_pos := 0 }).2
        = apply_brightness
            (if true then ws_gamma_stage (rainbowEffect.render wsDemoStrip.pixels 1)
             else rainbowEffect.render wsDemoStrip.pixels 1)
            wsDemoStrip.brightness :=
  C2_effect_switch_resets true wsDemoSt 0 "rainbow" [rainbowEffect]
    wsDemoStrip rainbowEffect rfl rfl rfl
    whiteDemoSt 0 "demo" [whiteDemoEffect] whiteDemoCh whiteDemoEffect rfl rfl
    rgbDemoSt 0 "demo" [rgbDemoEffect] rgbDemoStrip rgbDemoEffect 0 rfl rfl

/-- C9: in each of the ws, rgb and white families, `set_effect` fails
exactly when the channel is disabled/out-of-range or the name is not in the
effect registry; failure leaves the engine state unchanged; success installs
the named effect, resets the frame position to 0 and invokes the effect's
`init` when one is present. -/
theorem C9_set_effect_contract
    (st : WsEngineSt) (idx : Int) (name : String) (reg : List WsEffect)
    (wst : WhiteEngineSt) (wch : Int) (wname : String) (wreg : List WhiteEffect)
    (rst : RgbEngineSt) (ridx : Int) (rname : String) (rreg : List RgbEffect) :
    ((ul_ws_set_effect st idx name reg).1 = false
        ↔ ws_get_strip st idx = none ∨ find_effect_by_name reg name = none)
    ∧ ((ul_ws_set_effect st idx name reg).1 = false
        → (ul_ws_set_effect st idx name reg).2.1 = st)
    ∧ (∀ s e, ws_get_strip st idx = some s → find_effect_by_name reg name = some e →
        ul_ws_set_effect st idx name reg
          = (true, ws_set_strip st idx { s with eff := some e, frame_pos := 0 },
             e.hasInit))
    ∧ ((ul_white_set_effect wst wch wname wreg).1 = false
        ↔ white_get_ch wst wch = none ∨ white_find_eff wreg wname = none)
    ∧ ((ul_white_set_effect wst wch wname wreg).1 = false
        → (ul_white_set_effect wst wch wname wreg).2.1 = wst)
    ∧ (∀ c e, white_get_ch wst wch = some c → white_find_eff wreg wname = some e →
        ul_white_set_effect wst wch wname wreg
          = (true,
             { wst with
                chs := wst.chs.set wch.toNat { c with eff := some e, frame_idx := 0 } },
             e.hasInit))
    ∧ ((ul_rgb_set_effect rst ridx rname rreg).1 = false
        ↔ rgb_get_strip rst ridx = none ∨ rgb_find_effect rreg rname = none)
    ∧ ((ul_rgb_set_effect rst ridx rname rreg).1 = false
        → (ul_rgb_set_effect rst ridx rname rreg).2.1 = rst)
    ∧ (∀ s e, rgb_get_strip rst ridx = some s → rgb_find_effect rreg rname = some e →
        ul_rgb_set_effect rst ridx rname rreg
          = (true,
             { rst with
                strips := rst.strips.set ridx.toNat
                  { s with eff := some e, frame_idx := 0 } },
             e.hasInit)) := by
  refine ⟨?_, ?_, ?_, ?_, ?_, ?_, ?_, ?_, ?_⟩
  · cases hw : ws_get_strip st idx with
    | none => simp [ul_ws_set_effect, hw]
    | some s =>
        cases hf : find_effect_by_name reg name with
        | none => simp [ul_ws_set_effect, hw, hf]
        | some e => simp [ul_ws_set_effect, hw, hf]
  · cases hw : ws_get_strip st idx with
    | none => simp [ul_ws_set_effect, hw]
    | some s =>
        cases hf : find_effect_by_name reg name with
        | none => simp [ul_ws_set_effect, hw, hf]
        | some e => simp [ul_ws_set_effect, hw, hf]
  · intro s e hs he; simp [ul_ws_set_effect, hs, he]
  · cases hw : white_get_ch wst wch with
    | none => simp [ul_white_set_effect, hw]
    | some c =>
        cases hf : white_find_eff wreg wname with
        | none => simp [ul_white_set_effect, hw, hf]
        | some e => simp [ul_white_set_effect, hw, hf]
  · cases hw : white_get_ch wst wch with
    | none => simp [ul_white_set_effect, hw]
    | some c =>
        cases hf : white_find_eff wreg wname with
        | none => simp [ul_white_set_effect, hw, hf]
        | some e => simp [ul_white_set_effect, hw, hf]
  · intro c e hc he; simp [ul_white_set_effect, hc, he]
  · cases hw : rgb_get_strip rst ridx with
    | none => simp [ul_rgb_set_effect, hw]
    | some s =>
        cases hf : rgb_find_effect rreg rname with
        | none => simp [ul_rgb_set_effect, hw, hf]
        | some e => simp [ul_rgb_set_effect, hw, hf]
  · cases hw : rgb_get_strip rst ridx with
    | none => simp [ul_rgb_set_effect, hw]
    | some s =>
        cases hf : rgb_find_effect rreg rname with
        | none => simp [ul_rgb_set_effect, hw, hf]
        | some e => simp [ul_rgb_set_effect, hw, hf]
  · intro s e hs he; simp [ul_rgb_set_effect, hs, he]

theorem init_strip_fail {env : WsHwEnv} (h : wsInitOk env = false)
    (p : Nat) (reg : List WsEffect) :
    init_strip env p true reg = deinit_strip := by
  obtain ⟨n, c, m⟩ := env
  unfold wsInitOk at h
  unfold init_strip
  cases n <;> cases c <;> cases m <;> simp_all

/-- C5: if channel k's hardware or frame-buffer initialization fails during
`ul_ws_engine_start`, every other channel's init result is untouched (in
particular each successfully-initialized channel with index < k stays
enabled and fully configured), channel k ends fully disabled — handle null,
frame buffer null, pixels 0, brightness 0, no effect — and
`ul_ws_get_strip_count` counts only the successfully-initialized strips. -/
theorem C5_partial_failure_isolation
    (e1 e2 : WsStartEnv) (reg : List WsEffect)
    (hc1 : e1.connected = true) (hsem1 : e1.semOk = true)
    (hen1 : e1.en1 = true) (hfail1 : wsInitOk e1.env1 = false)
    (hc2 : e2.connected = true) (hsem2 : e2.semOk = true)
    (hen2 : e2.en0 = true) (hfail2 : wsInitOk e2.env0 = false) :
    (ul_ws_engine_start wsInitialSt e1 reg).strip0
        = init_strip e1.env0 e1.pixels0 e1.en0 reg
    ∧ (ul_ws_engine_start wsInitialSt e1 reg).strip1 = deinit_strip
    ∧ ws_get_strip (ul_ws_engine_start wsInitialSt e1 reg) 1 = none
    ∧ ul_ws_get_strip_count (ul_ws_engine_start wsInitialSt e1 reg)
        = (if 0 < (init_strip e1.env0 e1.pixels0 e1.en0 reg).pixels then 1 else 0)
    ∧ (ul_ws_engine_start wsInitialSt e2 reg).strip0 = deinit_strip
    ∧ (ul_ws_engine_start wsInitialSt e2 reg).strip1
        = init_strip e2.env1 e2.pixels1 e2.en1 reg
    ∧ ws_get_strip (ul_ws_engine_start wsInitialSt e2 reg) 0 = none
    ∧ ul_ws_get_strip_count (ul_ws_engine_start wsInitialSt e2 reg)
        = (if 0 < (init_strip e2.env1 e2.pixels1 e2.en1 reg).pixels then 1 else 0)
    ∧ deinit_strip.handle = false ∧ deinit_strip.frame = none
    ∧ deinit_strip.pixels = 0 ∧ deinit_strip.brightness = 0
    ∧ deinit_strip.eff = none := by
  have hstart1 : ul_ws_engine_start wsInitialSt e1 reg
      = { strip0 := init_strip e1.env0 e1.pixels0 e1.en0 reg,
          strip1 := init_strip e1.env1 e1.pixels1 e1.en1 reg,
          refresh_sem := true, refresh_task := true, ws_task := true } := by
    simp [ul_ws_engine_start, hc1, hsem1]
  have hstart2 : ul_ws_engine_start wsInitialSt e2 reg
      = { strip0 := init_strip e2.env0 e2.pixels0 e2.en0 reg,
          strip1 := init_strip e2.env1 e2.pixels1 e2.en1 reg,
          refresh_sem := true, refresh_task := true, ws_task := true } := by
    simp [ul_ws_engine_start, hc2, hsem2]
  have hd1 : init_strip e1.env1 e1.pixels1 e1.en1 reg = deinit_strip := by
    rw [hen1]; exact init_strip_fail hfail1 _ _
  have hd2 : init_strip e2.env0 e2.pixels0 e2.en0 reg = deinit_strip := by
    rw [hen2]; exact init_strip_fail hfail2 _ _
  refine ⟨?_, ?_, ?_, ?_, ?_, ?_, ?_, ?_, rfl, rfl, rfl, rfl, rfl⟩
  · rw [hstart1]
  · rw [hstart1]; exact hd1
  · rw [hstart1]; simp [ws_get_strip, hd1, deinit_strip]
  · rw [hstart1]; simp [ul_ws_get_strip_count, hd1, deinit_strip]
  · rw [hstart2]; exact hd2
  · rw [hstart2]
  · rw [hstart2]; simp [ws_get_strip, hd2, deinit_strip]
  · rw [hstart2]; simp [ul_ws_get_strip_count, hd2, deinit_strip]

/-- Witness for `C5_partial_failure_isolation`: strip 1's frame-buffer
allocation fails (as in the repo's own unit test) and, in a second scenario,
strip 0's strip-device creation fails. -/
theorem C5_partial_failure_isolation_witness :
    (ul_ws_engine_start wsInitialSt wsFailEnv1 [rainbowEffect]).strip0
        = init_strip wsFailEnv1.env0 wsFailEnv1.pixels0 wsFailEnv1.en0 [rainbowEffect]
    ∧ (ul_ws_engine_start wsInitialSt wsFailEnv1 [rainbowEffect]).strip1 = deinit_strip
    ∧ ws_get_strip (ul_ws_engine_start wsInitialSt wsFailEnv1 [rainbowEffect]) 1 = none
    ∧ ul_ws_get_strip_count (ul_ws_engine_start wsInitialSt wsFailEnv1 [rainbowEffect])
        = (if 0 < (init_strip wsFailEnv1.env0 wsFailEnv1.pixels0 wsFailEnv1.en0
              [rainbowEffect]).pixels then 1 else 0)
    ∧ (ul_ws_engine_start wsInitialSt wsFailEnv0 [rainbowEffect]).strip0 = deinit_strip
    ∧ (ul_ws_engine_start wsInitialSt wsFailEnv0 [rainbowEffect]).strip1
        = init_strip wsFailEnv0.env1 wsFailEnv0.pixels1 wsFailEnv0.en1 [rainbowEffect]
    ∧ ws_get_strip (ul_ws_engine_start wsInitialSt wsFailEnv0 [rainbowEffect]) 0 = none
    ∧ ul_ws_get_strip_count (ul_ws_engine_start wsInitialSt wsFailEnv0 [rainbowEffect])
        = (if 0 < (init_strip wsFailEnv0.env1 wsFailEnv0.pixels1 wsFailEnv0.en1
              [rainbowEffect]).pixels then 1 else 0)
    ∧ deinit_strip.handle = false ∧ deinit_strip.frame = none
    ∧ deinit_strip.pixels = 0 ∧ deinit_strip.brightness = 0
    ∧ deinit_strip.eff = none :=
  C5_partial_failure_isolation wsFailEnv1 wsFailEnv0 [rainbowEffect]
    rfl rfl rfl rfl rfl rfl rfl rfl

/-- C10: when `ul_core_is_connected()` reports not-connected at the moment
`ul_ws_engine_start()` is called, the call returns immediately with the
entire ws-engine state unchanged; from the pristine state no strip is
initialized (`ul_ws_get_strip_count` stays 0) and no refresh semaphore or
render/refresh task is created — the addressable-strip engine requires
connectivity to start at all. -/
theorem C10_ws_start_requires_connectivity
    (st : WsEngineSt) (e : WsStartEnv) (reg : List WsEffect)
    (h : e.connected = false) :
    ul_ws_engine_start st e reg = st
    ∧ ul_ws_engine_start wsInitialSt e reg = wsInitialSt
    ∧ ul_ws_get_strip_count (ul_ws_engine_start wsInitialSt e reg) = 0
    ∧ (ul_ws_engine_start wsInitialSt e reg).refresh_sem = false
    ∧ (ul_ws_engine_start wsInitialSt e reg).refresh_task = false
    ∧ (ul_ws_engine_start wsInitialSt e reg).ws_task = false := by
  have key : ∀ st' : WsEngineSt, ul_ws_engine_start st' e reg = st' := by
    intro st'
    simp [ul_ws_engine_start, h]
  refine ⟨key st, key wsInitialSt, ?_, ?_, ?_, ?_⟩ <;>
    rw [key wsInitialSt] <;> rfl

/-- Witness for `C10_ws_start_requires_connectivity` at a concrete offline
environment. -/
theorem C10_ws_start_requires_connectivity_witness :
    ul_ws_engine_start wsDemoSt wsOfflineEnv [rainbowEffect] = wsDemoSt
    ∧ ul_ws_engine_start wsInitialSt wsOfflineEnv [rainbowEffect] = wsInitialSt
    ∧ ul_ws_get_strip_count (ul_ws_engine_start wsInitialSt wsOfflineEnv [rainbowEffect]) = 0
    ∧ (ul_ws_engine_start wsInitialSt wsOfflineEnv [rainbowEffect]).refresh_sem = false
    ∧ (ul_ws_engine_start wsInitialSt wsOfflineEnv [rainbowEffect]).refresh_task = false
    ∧ (ul_ws_engine_start wsInitialSt wsOfflineEnv [rainbowEffect]).ws_task = false :=
  C10_ws_start_requires_connectivity wsDemoSt wsOfflineEnv [rainbowEffect] rfl

/-- Propositional characterization of `health_mark_wifi_recovery_attempt`. -/
theorem health_mark_wifi_eq (st : HealthState) (now : Nat) (count : Bool) :
    health_mark_wifi_recovery_attempt st now count
      = if st.started = true
          ∧ UL_HEALTH_WIFI_RECOVERY_RETRY_US ≤ now - st.last_wifi_recovery_us
          ∧ (count = true →
              st.wifi_recovery_attempts < UL_HEALTH_WIFI_MAX_RECOVERIES)
        then (true,
          { st with
              wifi_recovery_attempts :=
                if count = true ∧ st.wifi_recovery_attempts < UINT32_MAX
                then st.wifi_recovery_attempts + 1
                else st.wifi_recovery_attempts,
              last_wifi_recovery_us := now })
        else (false, st) := by
  unfold health_mark_wifi_recovery_attempt
  cases hc : count <;> cases hs : st.started <;>
    by_cases hr : UL_HEALTH_WIFI_RECOVERY_RETRY_US ≤ now - st.last_wifi_recovery_us <;>
    by_cases hm : st.wifi_recovery_attempts < UL_HEALTH_WIFI_MAX_RECOVERIES <;>
    simp [hr, hm]

/-- Propositional characterization of `health_mark_mqtt_recovery_attempt`. -/
theorem health_mark_mqtt_eq (st : HealthState) (now : Nat) :
    health_mark_mqtt_recovery_attempt st now
      = if st.started = true
          ∧ UL_HEALTH_MQTT_RECOVERY_RETRY_US ≤ now - st.last_mqtt_recovery_us
          ∧ st.mqtt_recovery_attempts < UL_HEALTH_MQTT_MAX_RECOVERIES
        then (true,
          { st with
              mqtt_recovery_attempts :=
                if st.mqtt_recovery_attempts < UINT32_MAX
                then st.mqtt_recovery_attempts + 1
                else st.mqtt_recovery_attempts,
              last_mqtt_recovery_us := now })
        else (false, st) := by
  unfold health_mark_mqtt_recovery_attempt
  cases hs : st.started <;>
    by_cases hr : UL_HEALTH_MQTT_RECOVERY_RETRY_US ≤ now - st.last_mqtt_recovery_us <;>
    by_cases hm : st.mqtt_recovery_attempts < UL_HEALTH_MQTT_MAX_RECOVERIES <;>
    simp [hr, hm]

theorem health_mark_wifi_true_parts {st : HealthState} {now : Nat} {c : Bool}
    (h : (health_mark_wifi_recovery_attempt st now c).1 = true) :
    (health_mark_wifi_recovery_attempt st now c).2.started = true
    ∧ (health_mark_wifi_recovery_attempt st now c).2.last_wifi_recovery_us = now := by
  rw [health_mark_wifi_eq] at h ⊢
  split_ifs at h ⊢ with hC
  all_goals simp_all

theorem health_mark_mqtt_true_parts {st : HealthState} {now : Nat}
    (h : (health_mark_mqtt_recovery_attempt st now).1 = true) :
    (health_mark_mqtt_recovery_attempt st now).2.started = true
    ∧ (health_mark_mqtt_recovery_attempt st now).2.last_mqtt_recovery_us = now := by
  rw [health_mark_mqtt_eq] at h ⊢
  split_ifs at h ⊢ with hC
  all_goals simp_all

/-- C4: two recovery-eligible ticks less than the retry interval apart can
never both issue a recovery request — if a mark call succeeds at `t1`, any
mark call at `t2` with `t2 - t1` below the retry interval is refused — a
later tick past the retry interval (with attempts below the maximum) issues
the next request, and the attempt counter increments exactly once per
counted request actually issued.  The decision and the counter/timestamp
update happen in one atomic step: `health_mark_*_recovery_attempt` is a
single critical-section function, embedded here as one pure transition.
Both the Wi-Fi and the MQTT variants are covered. -/
theorem C4_recovery_rate_limiting
    (st : HealthState) (t1 t2 t3 : Nat) (c2 : Bool)
    (h1 : (health_mark_wifi_recovery_attempt st t1 true).1 = true)
    (h2 : t2 - t1 < UL_HEALTH_WIFI_RECOVERY_RETRY_US)
    (h3 : UL_HEALTH_WIFI_RECOVERY_RETRY_US ≤ t3 - t1)
    (hmax : (health_mark_wifi_recovery_attempt st t1 true).2.wifi_recovery_attempts
              < UL_HEALTH_WIFI_MAX_RECOVERIES) :
    (health_mark_wifi_recovery_attempt
        (health_mark_wifi_recovery_attempt st t1 true).2 t2 c2).1 = false
    ∧ (health_mark_wifi_recovery_attempt
        (health_mark_wifi_recovery_attempt st t1 true).2 t3 true).1 = true
    ∧ (∀ (s : HealthState) (now : Nat) (cnt : Bool),
        s.wifi_recovery_attempts < UINT32_MAX →
        (health_mark_wifi_recovery_attempt s now cnt).2.wifi_recovery_attempts
          = s.wifi_recovery_attempts
            + (if (health_mark_wifi_recovery_attempt s now cnt).1 ∧ cnt = true
               then 1 else 0))
    ∧ (∀ (s : HealthState) (u1 u2 : Nat),
        (health_mark_mqtt_recovery_attempt s u1).1 = true →
        u2 - u1 < UL_HEALTH_MQTT_RECOVERY_RETRY_US →
        (health_mark_mqtt_recovery_attempt
            (health_mark_mqtt_recovery_attempt s u1).2 u2).1 = false)
    ∧ (∀ (s : HealthState) (now : Nat),
        s.mqtt_recovery_attempts < UINT32_MAX →
        (health_mark_mqtt_recovery_attempt s now).2.mqtt_recovery_attempts
          = s.mqtt_recovery_attempts
            + (if (health_mark_mqtt_recovery_attempt s now).1 then 1 else 0)) := by
  obtain ⟨hs1, hl1⟩ := health_mark_wifi_true_parts h1
  have hnC : ¬((health_mark_wifi_recovery_attempt st t1 true).2.started = true
      ∧ UL_HEALTH_WIFI_RECOVERY_RETRY_US
          ≤ t2 - (health_mark_wifi_recovery_attempt st t1 true).2.last_wifi_recovery_us
      ∧ (c2 = true →
          (health_mark_wifi_recovery_attempt st t1 true).2.wifi_recovery_attempts
            < UL_HEALTH_WIFI_MAX_RECOVERIES)) := by
    rintro ⟨-, hret, -⟩
    rw [hl1] at hret
    omega
  have hyC : (health_mark_wifi_recovery_attempt st t1 true).2.started = true
      ∧ UL_HEALTH_WIFI_RECOVERY_RETRY_US
          ≤ t3 - (health_mark_wifi_recovery_attempt st t1 true).2.last_wifi_recovery_us
      ∧ (true = true →
          (health_mark_wifi_recovery_attempt st t1 true).2.wifi_recovery_attempts
            < UL_HEALTH_WIFI_MAX_RECOVERIES) := by
    refine ⟨hs1, ?_, fun _ => hmax⟩
    rw [hl1]
    exact h3
  refine ⟨?_, ?_, ?_, ?_, ?_⟩
  · rw [health_mark_wifi_eq, if_neg hnC]
  · rw [health_mark_wifi_eq, if_pos hyC]
  · intro s now cnt hlt
    rw [health_mark_wifi_eq]
    split_ifs <;> simp_all
  · intro s u1 u2 hu1 hu2
    obtain ⟨hms1, hml1⟩ := health_mark_mqtt_true_parts hu1
    have hmn : ¬((health_mark_mqtt_recovery_attempt s u1).2.started = true
        ∧ UL_HEALTH_MQTT_RECOVERY_RETRY_US
            ≤ u2 - (health_mark_mqtt_recovery_attempt s u1).2.last_mqtt_recovery_us
        ∧ (health_mark_mqtt_recovery_attempt s u1).2.mqtt_recovery_attempts
            < UL_HEALTH_MQTT_MAX_RECOVERIES) := by
      rintro ⟨-, hret, -⟩
      rw [hml1] at hret
      omega
    rw [health_mark_mqtt_eq, if_neg hmn]
  · intro s now hlt
    rw [health_mark_mqtt_eq]
    split_ifs <;> simp_all

/-- Witness for `C4_recovery_rate_limiting`: the fresh monitor state with a
first request at the 10-minute mark, a second tick one microsecond later and
a third a full retry interval later. -/
theorem C4_recovery_rate_limiting_witness :
    (health_mark_wifi_recovery_attempt
        (health_mark_wifi_recovery_attempt healthFreshSt 600000000 true).2
        600000001 true).1 = false
    ∧ (health_mark_wifi_recovery_attempt
        (health_mark_wifi_recovery_attempt healthFreshSt 600000000 true).2
        1200000000 true).1 = true
    ∧ (∀ (s : HealthState) (now : Nat) (cnt : Bool),
        s.wifi_recovery_attempts < UINT32_MAX →
        (health_mark_wifi_recovery_attempt s now cnt).2.wifi_recovery_attempts
          = s.wifi_recovery_attempts
            + (if (health_mark_wifi_recovery_attempt s now cnt).1 ∧ cnt = true
               then 1 else 0))
    ∧ (∀ (s : HealthState) (u1 u2 : Nat),
        (health_mark_mqtt_recovery_attempt s u1).1 = true →
        u2 - u1 < UL_HEALTH_MQTT_RECOVERY_RETRY_US →
        (health_mark_mqtt_recovery_attempt
            (health_mark_mqtt_recovery_attempt s u1).2 u2).1 = false)
    ∧ (∀ (s : HealthState) (now : Nat),
        s.mqtt_recovery_attempts < UINT32_MAX →
        (health_mark_mqtt_recovery_attempt s now).2.mqtt_recovery_attempts
          = s.mqtt_recovery_attempts
            + (if (health_mark_mqtt_recovery_attempt s now).1 then 1 else 0)) :=
  C4_recovery_rate_limiting healthFreshSt 600000000 600000001 1200000000 true
    (by decide) (by decide) (by decide) (by decide)

/-- The truncating ms → frames conversion, in `Nat` form: the C expression
`(ms * hz) / 1000` (with negative `ms` clamped to 0) followed by the
minimum-1 clamp equals `max 1 (⌊ms * hz / 1000⌋)`. -/
theorem swell_frames_of_ms_eq (ms : Int) (hz : Nat) :
    swell_frames_of_ms ms hz
      = max 1 ((if ms < 0 then 0 else ms).toNat * hz / 1000) := by
  unfold swell_frames_of_ms
  by_cases hneg : ms < 0
  · simp [hneg]
  · simp only [if_neg hneg]
    have hms : (0 : Int) ≤ ms := le_of_not_lt hneg
    have hcast : ms * (hz : Int) / 1000 = ((ms.toNat * hz / 1000 : Nat) : Int) := by
      conv_lhs => rw [show ms = ((ms.toNat : Int)) from (Int.toNat_of_nonneg hms).symm]
      push_cast
      norm_cast
    rw [hcast]
    by_cases h1 : (ms.toNat * hz / 1000 : Nat) = 0
    · simp [h1]
    · have hnlt : ¬ ((ms.toNat * hz / 1000 : Nat) : Int) < 1 := by omega
      simp only [if_neg hnlt]
      omega

/-- C8, counterexample to the claim as stated: the duration-to-frames
conversion truncates, it does not round.  With a 200 Hz smoothing rate and a
9 ms duration, `white_swell_apply_params` stores `(9*200)/1000 = 1` frame,
while the spec's `round(9*200/1000) = round(1.8) = 2`. -/
theorem C8_frames_truncate_not_round :
    (white_swell_apply_params swellInitSt 0
        (some [JVal.num 0, JVal.num 255, JVal.num 9]) 200).s_frames = [1, 1, 1, 1]
    ∧ spec_frames_of_ms 9 200 = 2
    ∧ (white_swell_apply_params swellInitSt 0
        (some [JVal.num 0, JVal.num 255, JVal.num 9]) 200).s_frames[0]?
        ≠ some (spec_frames_of_ms 9 200) := by
  refine ⟨by decide, by decide, by decide⟩

/-- C8 (amended): `white_swell_apply_params` never fails: the two level
entries are clamped into `[0,255]`, the duration entry is converted to a
frame count by the *truncating* integer division `(ms*rate_hz)/1000`
(negative durations clamped to 0) and then clamped to a minimum of 1, and
non-number or missing entries leave their field unchanged; the channel's
progress is always reset. -/
theorem C8_apply_params_clamps
    (st : SwellSt) (ch : Int) (ps : List JVal) (hz : Nat)
    (h0 : 0 ≤ ch) (h3 : ch ≤ 3) :
    white_swell_apply_params st ch (some ps) hz
      = { s_start :=
            match ps[0]? with
            | some (JVal.num x) => st.s_start.set ch.toNat (clamp255 x)
            | _ => st.s_start,
          s_end :=
            match ps[1]? with
            | some (JVal.num y) => st.s_end.set ch.toNat (clamp255 y)
            | _ => st.s_end,
          s_frames :=
            match ps[2]? with
            | some (JVal.num ms) =>
                st.s_frames.set ch.toNat (swell_frames_of_ms ms hz)
            | _ => st.s_frames,
          s_progress := st.s_progress.set ch.toNat 0 }
    ∧ (∀ x, clamp255 x ≤ 255)
    ∧ (∀ ms, swell_frames_of_ms ms hz
          = max 1 ((if ms < 0 then 0 else ms).toNat * hz / 1000))
    ∧ (∀ ms, 1 ≤ swell_frames_of_ms ms hz)
    ∧ (∀ x, ps[0]? = some (JVal.num x) → ch.toNat < st.s_start.length →
        (white_swell_apply_params st ch (some ps) hz).s_start[ch.toNat]?
          = some (clamp255 x))
    ∧ (ps[2]? = some JVal.notNum ∨ ps[2]? = none →
        (white_swell_apply_params st ch (some ps) hz).s_frames = st.s_frames) := by
  have hch : (ch < 0 || 3 < ch) = false := by
    simp only [Bool.or_eq_false_iff, decide_eq_false_iff_not]
    omega
  have hmain : white_swell_apply_params st ch (some ps) hz
      = { s_start :=
            match ps[0]? with
            | some (JVal.num x) => st.s_start.set ch.toNat (clamp255 x)
            | _ => st.s_start,
          s_end :=
            match ps[1]? with
            | some (JVal.num y) => st.s_end.set ch.toNat (clamp255 y)
            | _ => st.s_end,
          s_frames :=
            match ps[2]? with
            | some (JVal.num ms) =>
                st.s_frames.set ch.toNat (swell_frames_of_ms ms hz)
            | _ => st.s_frames,
          s_progress := st.s_progress.set ch.toNat 0 } := by
    unfold white_swell_apply_params
    simp only [hch, Bool.false_eq_true, if_false]
    rcases hp0 : ps[0]? with - | jv0 <;>
      rcases hp1 : ps[1]? with - | jv1 <;>
        rcases hp2 : ps[2]? with - | jv2
    all_goals try cases jv0
    all_goals try cases jv1
    all_goals try cases jv2
    all_goals rfl
  refine ⟨hmain, ?_, fun ms => swell_frames_of_ms_eq ms hz, ?_, ?_, ?_⟩
  · intro x
    unfold clamp255
    split_ifs <;> omega
  · intro ms
    rw [swell_frames_of_ms_eq]
    omega
  · intro x hx hlt
    rw [hmain]
    simp only [hx]
    rw [List.getElem?_set_self]
    exact hlt
  · intro hmiss
    rw [hmain]
    rcases hmiss with hm | hm <;> simp [hm]

/-- Witness for `C8_apply_params_clamps` at channel 2, params
`[-5, 300, 9]`, 200 Hz. -/
theorem C8_apply_params_clamps_witness :
    white_swell_apply_params swellInitSt 2
        (some [JVal.num (-5), JVal.num 300, JVal.num 9]) 200
      = { s_start :=
            match [JVal.num (-5), JVal.num 300, JVal.num 9][0]? with
            | some (JVal.num x) => swellInitSt.s_start.set (Int.toNat 2) (clamp255 x)
            | _ => swellInitSt.s_start,
          s_end :=
            match [JVal.num (-5), JVal.num 300, JVal.num 9][1]? with
            | some (JVal.num y) => swellInitSt.s_end.set (Int.toNat 2) (clamp255 y)
            | _ => swellInitSt.s_end,
          s_frames :=
            match [JVal.num (-5), JVal.num 300, JVal.num 9][2]? with
            | some (JVal.num ms) =>
                swellInitSt.s_frames.set (Int.toNat 2) (swell_frames_of_ms ms 200)
            | _ => swellInitSt.s_frames,
          s_progress := swellInitSt.s_progress.set (Int.toNat 2) 0 }
    ∧ (∀ x, clamp255 x ≤ 255)
    ∧ (∀ ms, swell_frames_of_ms ms 200
          = max 1 ((if ms < 0 then 0 else ms).toNat * 200 / 1000))
    ∧ (∀ ms, 1 ≤ swell_frames_of_ms ms 200)
    ∧ (∀ x, [JVal.num (-5), JVal.num 300, JVal.num 9][0]? = some (JVal.num x) →
        Int.toNat 2 < swellInitSt.s_start.length →
        (white_swell_apply_params swellInitSt 2
            (some [JVal.num (-5), JVal.num 300, JVal.num 9]) 200).s_start[Int.toNat 2]?
          = some (clamp255 x))
    ∧ ([JVal.num (-5), JVal.num 300, JVal.num 9][2]? = some JVal.notNum
        ∨ [JVal.num (-5), JVal.num 300, JVal.num 9][2]? = none →
        (white_swell_apply_params swellInitSt 2
            (some [JVal.num (-5), JVal.num 300, JVal.num 9]) 200).s_frames
          = swellInitSt.s_frames) :=
  C8_apply_params_clamps swellInitSt 2 [JVal.num (-5), JVal.num 300, JVal.num 9]
    200 (by decide) (by decide)

/-- `health_tick_pre` touches only `last_metrics_log_us` and
`heap_low_strikes`. -/
theorem health_tick_pre_fields (st : HealthState) (now mh : Nat) :
    (health_tick_pre st now mh).started = st.started
    ∧ (health_tick_pre st now mh).wifi_connected = st.wifi_connected
    ∧ (health_tick_pre st now mh).wifi_recovery_attempts = st.wifi_recovery_attempts
    ∧ (health_tick_pre st now mh).wifi_last_change_us = st.wifi_last_change_us
    ∧ (health_tick_pre st now mh).last_wifi_recovery_us = st.last_wifi_recovery_us := by
  unfold health_tick_pre
  split_ifs <;> simp

theorem health_wifi_branch_rebootWifi {st : HealthState} {now : Nat}
    (h : HealthAction.rebootWifi ∈ (health_wifi_branch st now).2.1) :
    UL_HEALTH_WIFI_MAX_RECOVERIES ≤ st.wifi_recovery_attempts
    ∧ UL_HEALTH_WIFI_ESCALATE_US ≤ now - st.wifi_last_change_us
    ∧ UL_HEALTH_WIFI_RECOVERY_RETRY_US ≤ now - st.last_wifi_recovery_us := by
  simp only [health_wifi_branch] at h
  split_ifs at h <;> simp_all

theorem health_mqtt_branch_no_rebootWifi (st : HealthState) (now : Nat) :
    HealthAction.rebootWifi ∉ (health_mqtt_branch st now).2 := by
  simp only [health_mqtt_branch]
  split_ifs <;> simp

theorem health_sync_branch_no_rebootWifi (st : HealthState) (now : Nat) :
    HealthAction.rebootWifi ∉ (health_sync_branch st now).2.1 := by
  simp only [health_sync_branch]
  split_ifs <;> simp

/-- Soundness of the Wi-Fi reboot escalation at a single tick: a
`rebootWifi` action can only be issued when Wi-Fi is down, the attempt
counter has reached the maximum, the offline time has reached the
escalation threshold and a full retry interval has passed since the last
recovery stamp. -/
theorem health_tick_rebootWifi_sound (st : HealthState) (now mh : Nat)
    (h : HealthAction.rebootWifi ∈ (health_tick st now mh).2.1) :
    st.wifi_connected = false
    ∧ UL_HEALTH_WIFI_MAX_RECOVERIES ≤ st.wifi_recovery_attempts
    ∧ UL_HEALTH_WIFI_ESCALATE_US ≤ now - st.wifi_last_change_us
    ∧ UL_HEALTH_WIFI_RECOVERY_RETRY_US ≤ now - st.last_wifi_recovery_us := by
  obtain ⟨hp1, hp2, hp3, hp4, hp5⟩ := health_tick_pre_fields st now mh
  simp only [health_tick] at h
  by_cases hs : st.started
  · simp only [hs, Bool.not_true, Bool.false_eq_true, if_false] at h
    by_cases hheap : mh < UL_HEALTH_HEAP_LOW_THRESHOLD
        ∧ UL_HEALTH_HEAP_LOW_STRIKES ≤ (health_tick_pre st now mh).heap_low_strikes
    · simp [hheap] at h
    · simp only [if_neg hheap] at h
      by_cases hw : (health_tick_pre st now mh).wifi_connected = false
      · simp only [hw, Bool.not_false, if_true, if_pos rfl] at h
        have hc := health_wifi_branch_rebootWifi h
        rw [hp3, hp4, hp5] at hc
        exact ⟨hp2 ▸ hw, hc⟩
      · have hw' : ((!(health_tick_pre st now mh).wifi_connected) = true) = False := by
          simp at hw ⊢
          exact hw
        simp only [hw', if_false, List.mem_append] at h
        rcases h with h | h
        · exact absurd h (health_mqtt_branch_no_rebootWifi _ _)
        · exact absurd h (health_sync_branch_no_rebootWifi _ _)
  · simp only [Bool.not_eq_true'] at hs
    simp [hs] at h

/-- When the Wi-Fi attempts are exhausted, the rate-limited mark call always
refuses. -/
theorem health_mark_wifi_exhausted {st : HealthState} {now : Nat}
    (ha : UL_HEALTH_WIFI_MAX_RECOVERIES ≤ st.wifi_recovery_attempts) :
    health_mark_wifi_recovery_attempt st now true = (false, st) := by
  rw [health_mark_wifi_eq, if_neg]
  rintro ⟨-, -, hlt⟩
  have := hlt rfl
  omega

/-- A Wi-Fi-down tick with attempts exhausted that does not meet both the
escalation threshold and the retry interval issues nothing and leaves the
branch state unchanged. -/
theorem health_wifi_branch_quiet {st : HealthState} {now : Nat}
    (ha : UL_HEALTH_WIFI_MAX_RECOVERIES ≤ st.wifi_recovery_attempts)
    (hnq : ¬(UL_HEALTH_WIFI_ESCALATE_US ≤ now - st.wifi_last_change_us
            ∧ UL_HEALTH_WIFI_RECOVERY_RETRY_US ≤ now - st.last_wifi_recovery_us)) :
    health_wifi_branch st now = (st, [], false) := by
  simp only [health_wifi_branch, health_mark_wifi_exhausted ha,
    Bool.false_eq_true, if_false]
  split_ifs with h1 h2
  · exact absurd ⟨h2.2.1, h2.2.2⟩ hnq
  · rfl
  · rfl

/-- A Wi-Fi-down tick with attempts exhausted that meets both the
escalation threshold and the retry interval reboots. -/
theorem health_wifi_branch_fires {st : HealthState} {now : Nat}
    (ha : UL_HEALTH_WIFI_MAX_RECOVERIES ≤ st.wifi_recovery_attempts)
    (hesc : UL_HEALTH_WIFI_ESCALATE_US ≤ now - st.wifi_last_change_us)
    (hret : UL_HEALTH_WIFI_RECOVERY_RETRY_US ≤ now - st.last_wifi_recovery_us) :
    health_wifi_branch st now = (st, [HealthAction.rebootWifi], true) := by
  have hdelay : UL_HEALTH_WIFI_RECOVERY_DELAY_US ≤ now - st.wifi_last_change_us := by
    have : UL_HEALTH_WIFI_RECOVERY_DELAY_US ≤ UL_HEALTH_WIFI_ESCALATE_US := by decide
    omega
  simp only [health_wifi_branch, health_mark_wifi_exhausted ha]
  rw [if_pos hdelay]
  simp only [Bool.false_eq_true, if_false]
  rw [if_pos ⟨ha, hesc, hret⟩]

/-- Tick-level version of `health_wifi_branch_quiet`: with a healthy heap the
non-qualifying tick issues nothing and preserves every Wi-Fi field. -/
theorem health_tick_quiet {st : HealthState} {now mh : Nat}
    (hs : st.started = true) (hw : st.wifi_connected = false)
    (ha : UL_HEALTH_WIFI_MAX_RECOVERIES ≤ st.wifi_recovery_attempts)
    (hmh : UL_HEALTH_HEAP_LOW_THRESHOLD ≤ mh)
    (hnq : ¬(UL_HEALTH_WIFI_ESCALATE_US ≤ now - st.wifi_last_change_us
            ∧ UL_HEALTH_WIFI_RECOVERY_RETRY_US ≤ now - st.last_wifi_recovery_us)) :
    health_tick st now mh = (health_tick_pre st now mh, [], false) := by
  obtain ⟨hp1, hp2, hp3, hp4, hp5⟩ := health_tick_pre_fields st now mh
  simp only [health_tick, hs, Bool.not_true, Bool.false_eq_true, if_false]
  rw [if_neg (by omega), if_pos (by simp [hp2, hw])]
  apply health_wifi_branch_quiet
  · rw [hp3]; exact ha
  · rw [hp4, hp5]; exact hnq

/-- Tick-level version of `health_wifi_branch_fires`. -/
theorem health_tick_fires {st : HealthState} {now mh : Nat}
    (hs : st.started = true) (hw : st.wifi_connected = false)
    (ha : UL_HEALTH_WIFI_MAX_RECOVERIES ≤ st.wifi_recovery_attempts)
    (hmh : UL_HEALTH_HEAP_LOW_THRESHOLD ≤ mh)
    (hesc : UL_HEALTH_WIFI_ESCALATE_US ≤ now - st.wifi_last_change_us)
    (hret : UL_HEALTH_WIFI_RECOVERY_RETRY_US ≤ now - st.last_wifi_recovery_us) :
    health_tick st now mh
      = (health_tick_pre st now mh, [HealthAction.rebootWifi], true) := by
  obtain ⟨hp1, hp2, hp3, hp4, hp5⟩ := health_tick_pre_fields st now mh
  simp only [health_tick, hs, Bool.not_true, Bool.false_eq_true, if_false]
  rw [if_neg (by omega), if_pos (by simp [hp2, hw])]
  apply health_wifi_branch_fires
  · rw [hp3]; exact ha
  · rw [hp4]; exact hesc
  · rw [hp5]; exact hret

/-- Run-level escalation: Wi-Fi down throughout, attempts exhausted, heap
healthy; as soon as some tick meets the escalation threshold and the retry
interval, the run's whole action trace is exactly one `rebootWifi`. -/
theorem health_run_reboot_once (ticks : List (Nat × Nat)) (st : HealthState)
    (hs : st.started = true) (hw : st.wifi_connected = false)
    (ha : UL_HEALTH_WIFI_MAX_RECOVERIES ≤ st.wifi_recovery_attempts)
    (hheap : ∀ t ∈ ticks, UL_HEALTH_HEAP_LOW_THRESHOLD ≤ t.2)
    (hex : ∃ t ∈ ticks,
        UL_HEALTH_WIFI_ESCALATE_US ≤ t.1 - st.wifi_last_change_us
        ∧ UL_HEALTH_WIFI_RECOVERY_RETRY_US ≤ t.1 - st.last_wifi_recovery_us) :
    (health_run st ticks).2 = [HealthAction.rebootWifi] := by
  induction ticks generalizing st with
  | nil => simp at hex
  | cons t ts ih =>
      obtain ⟨hp1, hp2, hp3, hp4, hp5⟩ := health_tick_pre_fields st t.1 t.2
      have hmh : UL_HEALTH_HEAP_LOW_THRESHOLD ≤ t.2 := hheap t (by simp)
      by_cases hq : UL_HEALTH_WIFI_ESCALATE_US ≤ t.1 - st.wifi_last_change_us
          ∧ UL_HEALTH_WIFI_RECOVERY_RETRY_US ≤ t.1 - st.last_wifi_recovery_us
      · have hstep := health_tick_fires hs hw ha hmh hq.1 hq.2
        simp [health_run, hstep]
      · have hstep := health_tick_quiet hs hw ha hmh hq
        have hrest : (health_run (health_tick_pre st t.1 t.2) ts).2
            = [HealthAction.rebootWifi] := by
          apply ih
          · rw [hp1]; exact hs
          · rw [hp2]; exact hw
          · rw [hp3]; exact ha
          · intro u hu; exact hheap u (by simp [hu])
          · obtain ⟨u, hu, hcond⟩ := hex
            rcases List.mem_cons.mp hu with rfl | hu'
            · exact absurd hcond hq
            · exact ⟨u, hu', by rw [hp4, hp5]; exact hcond⟩
        simp [health_run, hstep, hrest]

/-- C6: the health monitor reboots for Wi-Fi loss only when the
recovery-attempt count has reached the maximum (4) and Wi-Fi has been down
at least the 6-hour escalate threshold (the code additionally requires a
retry interval since the last recovery stamp); and in any run with Wi-Fi
down throughout, attempts exhausted, heap healthy and some tick past the
escalation window, the reboot action fires exactly once — the run's whole
action trace is the single `rebootWifi`, counted once among reboot actions,
and `esp_restart()` never returns so no further tick runs. -/
theorem C6_reboot_escalation
    (st : HealthState) (now mh : Nat)
    (st0 : HealthState) (ticks : List (Nat × Nat))
    (hs : st0.started = true) (hw : st0.wifi_connected = false)
    (ha : UL_HEALTH_WIFI_MAX_RECOVERIES ≤ st0.wifi_recovery_attempts)
    (hheap : ∀ t ∈ ticks, UL_HEALTH_HEAP_LOW_THRESHOLD ≤ t.2)
    (hex : ∃ t ∈ ticks,
        UL_HEALTH_WIFI_ESCALATE_US ≤ t.1 - st0.wifi_last_change_us
        ∧ UL_HEALTH_WIFI_RECOVERY_RETRY_US ≤ t.1 - st0.last_wifi_recovery_us) :
    (HealthAction.rebootWifi ∈ (health_tick st now mh).2.1 →
      st.wifi_connected = false
      ∧ UL_HEALTH_WIFI_MAX_RECOVERIES ≤ st.wifi_recovery_attempts
      ∧ UL_HEALTH_WIFI_ESCALATE_US ≤ now - st.wifi_last_change_us)
    ∧ (health_run st0 ticks).2 = [HealthAction.rebootWifi]
    ∧ (health_run st0 ticks).2.countP (fun a => HealthAction.isReboot a) = 1 := by
  refine ⟨?_, ?_, ?_⟩
  · intro h
    have hc := health_tick_rebootWifi_sound st now mh h
    exact ⟨hc.1, hc.2.1, hc.2.2.1⟩
  · exact health_run_reboot_once ticks st0 hs hw ha hheap hex
  · rw [health_run_reboot_once ticks st0 hs hw ha hheap hex]
    rfl

/-- Witness for `C6_reboot_escalation`: the exhausted-attempts state, a tick
at the six-hour mark, and the three-tick demo run. -/
theorem C6_reboot_escalation_witness :
    (HealthAction.rebootWifi ∈ (health_tick healthDemoSt 21600000000 100000).2.1 →
      healthDemoSt.wifi_connected = false
      ∧ UL_HEALTH_WIFI_MAX_RECOVERIES ≤ healthDemoSt.wifi_recovery_attempts
      ∧ UL_HEALTH_WIFI_ESCALATE_US ≤ 21600000000 - healthDemoSt.wifi_last_change_us)
    ∧ (health_run healthDemoSt healthDemoTicks).2 = [HealthAction.rebootWifi]
    ∧ (health_run healthDemoSt healthDemoTicks).2.countP
        (fun a => HealthAction.isReboot a) = 1 :=
  C6_reboot_escalation healthDemoSt 21600000000 100000 healthDemoSt healthDemoTicks
    rfl rfl (by decide) (by decide) (by decide)

end UltraNode
